import Mathlib

/-!
Shallow embedding of `two1/commands/login.py`.

The module's observable behaviour is modelled as a pure function from the
invocation's inputs (the config object, the environment the external
collaborators provide, the command-line options, and the stream of integers
the user would type at the numeric prompt) to a final config state together
with a trace of the side effects the code performs, in order.

External collaborators (click, the wallet library, the rest client, the
account service) are modelled at their call boundary: each call the module
makes becomes an event in the trace, and the data they return
(wallet-file existence, the username list from `account_info`) are inputs.
-/

namespace TwoOneLogin

/-- A compressed public key: `machine_auth.public_key.compressed_bytes`
(a byte string, each element < 256). -/
structure PublicKey where
  compressed_bytes : List Nat
deriving DecidableEq, Repr

/-- A machine auth object (`MachineAuthWallet(wallet)` or the cached
`config.machine_auth`): all this module reads from it is `public_key`. -/
structure MachineAuth where
  public_key : PublicKey
deriving DecidableEq, Repr

/-- The `Config` object: `username` attribute (absent = `none`; Python
truthiness makes the empty string falsy), the optionally cached
`machine_auth` attribute, and the key-value store with its on-disk state
(`disk`) and in-memory view (`mem`); `load` copies disk to mem,
`update_key` mutates mem, `save` copies mem to disk. -/
structure ConfigObj where
  username : Option String
  machine_auth : Option MachineAuth
  disk : List (String × String)
  mem : List (String × String)
deriving DecidableEq, Repr

/-- Environment provided by external collaborators during one invocation:
whether `Two1Wallet.check_wallet_file(DEFAULT_WALLET_PATH)` holds, the
machine auth that `MachineAuthWallet(Wallet(...))` would yield, and the
username list the account service returns from `client.account_info()`. -/
structure Env where
  wallet_exists : Bool
  wallet_auth : MachineAuth
  usernames : List String
deriving DecidableEq, Repr

/-- The structured messages the module emits (the `UxString` templates are
external; each constructor records the template and its format arguments). -/
inductive Msg where
  | currentlyLoggedIn (u : String)
  | registeredTitle
  | numberedUser (i : Nat) (u : String)
  | invalidIndex (lo n : Nat)
  | userDoesNotExist (u : String)
  | loggingIn (u : String)
  | noAccountFound
deriving DecidableEq, Repr

/-- One observable side effect performed by the module, in program order. -/
inductive Ev where
  | secho (m : Msg)
  | printOut (s : String)
  | promptInt (i : Int)
  | passwordPrompt
  | restClientInit
  | accountInfoCall
  | updatePasswordCall
  | createWalletAndAccount
  | configLoad
  | configUpdate (k v : String)
  | configSave
deriving DecidableEq, Repr

/-- The base64 alphabet, as used by `base64.b64encode`. -/
def b64Alphabet : List Char :=
  "ABCDEFGHIJKLMNOPQRSTUVWXYZabcdefghijklmnopqrstuvwxyz0123456789+/".toList

/-- The base64 digit character for a 6-bit value. -/
def b64Char (n : Nat) : Char := b64Alphabet.getD n 'A'

/-- `base64.b64encode` on a byte string (standard base64 with `=` padding). -/
def b64encode : List Nat → String
  | [] => ""
  | [a] =>
      String.mk [b64Char (a / 4), b64Char (a % 4 * 16), '=', '=']
  | [a, b] =>
      String.mk [b64Char (a / 4), b64Char (a % 4 * 16 + b / 16),
                 b64Char (b % 16 * 4), '=']
  | a :: b :: c :: rest =>
      String.mk [b64Char (a / 4), b64Char (a % 4 * 16 + b / 16),
                 b64Char (b % 16 * 4 + c / 64), b64Char (c % 64)]
        ++ b64encode rest

/-- `Config.update_key k v` on the underlying key-value list: replace the
first binding of `k` (keeping its position), or append a binding of `k`. -/
def update_key : List (String × String) → String → String → List (String × String)
  | [], k, v => [(k, v)]
  | (k0, v0) :: rest, k, v =>
      if k0 = k then (k, v) :: rest else (k0, v0) :: update_key rest k v

/-- Python truthiness of the `config.username` attribute: absent or the
empty string is falsy. -/
def truthyUsername : Option String → Bool
  | none => false
  | some s => s ≠ ""

/-- The `Currently logged in as` banner `_login` prints when
`config.username` is truthy. -/
def loggedInEvs (cfg : ConfigObj) : List Ev :=
  match cfg.username with
  | some u => if u = "" then [] else [Ev.secho (Msg.currentlyLoggedIn u)]
  | none => []

/-- Machine-auth resolution as `_login` performs it inline (and as
`get_machine_auth` duplicates): cached `config.machine_auth` if present,
else the wallet-derived auth when the wallet file exists, else `none`
(the branch that calls `create_wallet_and_account()` and returns). -/
def resolveAuth (cfg : ConfigObj) (env : Env) : Option MachineAuth :=
  match cfg.machine_auth with
  | some ma => some ma
  | none => if env.wallet_exists then some env.wallet_auth else none

/-- The numbered username listing: `"{}- {}".format(counter, user)` for each
username, with `counter` starting at 1 and incremented per line. -/
def displayList (counter : Nat) : List String → List Ev
  | [] => []
  | u :: rest => Ev.secho (Msg.numberedUser counter u) :: displayList (counter + 1) rest

/-- The `while username_index <= 0 or username_index > len(usernames)` loop:
consume integers from the input stream; each out-of-range entry emits the
formatted invalid-index message (`.format(1, len(usernames))`) and
re-prompts; the first in-range entry ends the loop. Returns the trace of
prompt/reject events and the accepted index (`none` if the stream ran out,
i.e. the loop is still blocked on input). -/
def promptLoop (n : Nat) : List Int → List Ev × Option Int
  | [] => ([], none)
  | i :: rest =>
      if i ≤ 0 ∨ i > (n : Int) then
        let r := promptLoop n rest
        (Ev.promptInt i :: Ev.secho (Msg.invalidIndex 1 n) :: r.1, r.2)
      else ([Ev.promptInt i], some i)

/-- The config-state effect of `save_config`: `config.load()`, then
`config.update_key("username", username)`, then
`config.update_key("mining_auth_pubkey", b64)`, then `config.save()`. -/
def save_configState (cfg : ConfigObj) (ma : MachineAuth) (username : String) : ConfigObj :=
  let b64 := b64encode ma.public_key.compressed_bytes
  let cfg1 := { cfg with mem := cfg.disk }
  let cfg2 := { cfg1 with mem := update_key cfg1.mem "username" username }
  let cfg3 := { cfg2 with mem := update_key cfg2.mem "mining_auth_pubkey" b64 }
  { cfg3 with disk := cfg3.mem }

/-- The event trace of `save_config`. -/
def save_configEvs (ma : MachineAuth) (username : String) : List Ev :=
  [Ev.secho (Msg.loggingIn username), Ev.configLoad,
   Ev.configUpdate "username" username,
   Ev.configUpdate "mining_auth_pubkey" (b64encode ma.public_key.compressed_bytes),
   Ev.configSave]

/-- `save_config(config, machine_auth, username)`. -/
def save_config (cfg : ConfigObj) (ma : MachineAuth) (username : String) :
    ConfigObj × List Ev :=
  (save_configState cfg ma username, save_configEvs ma username)

/-- The four state-mutating calls of `save_config` in program order, as
individual steps (used to express what an interruption before the final
`config.save()` leaves on disk). -/
def save_configSteps (ma : MachineAuth) (username : String) :
    List (ConfigObj → ConfigObj) :=
  let b64 := b64encode ma.public_key.compressed_bytes
  [fun c => { c with mem := c.disk },
   fun c => { c with mem := update_key c.mem "username" username },
   fun c => { c with mem := update_key c.mem "mining_auth_pubkey" b64 },
   fun c => { c with disk := c.mem }]

/-- Running the first `k` mutating calls of `save_config`. -/
def save_configUpTo (cfg : ConfigObj) (ma : MachineAuth) (username : String)
    (k : Nat) : ConfigObj :=
  ((save_configSteps ma username).take k).foldl (fun c f => f c) cfg

/-- `_login(config, user)`: banner, machine-auth resolution (short-circuit
into `create_wallet_and_account()` when no cached auth and no wallet file),
rest-client construction and `account_info()`, then: empty username list →
`create_wallet_and_account()`; explicit `user` → select it if present, else
the does-not-exist message; no `user` → numbered listing and the prompt
loop, indexing `usernames[username_index - 1]` (in range whenever the loop
accepts, so `getD` agrees with Python's indexing); the selected username
goes to `save_config`. -/
def login_ (cfg : ConfigObj) (env : Env) (user : Option String)
    (inputs : List Int) : ConfigObj × List Ev :=
  let ev0 := loggedInEvs cfg
  match resolveAuth cfg env with
  | none => (cfg, ev0 ++ [Ev.createWalletAndAccount])
  | some ma =>
    let ev1 := ev0 ++ [Ev.restClientInit, Ev.accountInfoCall]
    if env.usernames.length = 0 then
      (cfg, ev1 ++ [Ev.createWalletAndAccount])
    else
      match user with
      | none =>
          let listEvs := Ev.secho Msg.registeredTitle :: displayList 1 env.usernames
          match promptLoop env.usernames.length inputs with
          | (pEvs, some i) =>
              let username := env.usernames.getD ((i - 1).toNat) ""
              let sc := save_config cfg ma username
              (sc.1, ev1 ++ listEvs ++ pEvs ++ sc.2)
          | (pEvs, none) => (cfg, ev1 ++ listEvs ++ pEvs)
      | some u =>
          if u ∈ env.usernames then
            let sc := save_config cfg ma u
            (sc.1, ev1 ++ sc.2)
          else
            (cfg, ev1 ++ [Ev.secho (Msg.userDoesNotExist u)])

/-- `get_machine_auth(config)`: cached auth, or wallet-derived auth, or —
when the wallet file is absent — a call to `create_wallet_and_account()`
followed by a bare `return` (so the caller receives `None`). -/
def get_machine_auth (cfg : ConfigObj) (env : Env) :
    Option MachineAuth × List Ev :=
  match cfg.machine_auth with
  | some ma => (some ma, [])
  | none =>
      if env.wallet_exists then (some env.wallet_auth, [])
      else (none, [Ev.createWalletAndAccount])

/-- `_set_password(config, user)`: fail fast when `config` has no
`username` attribute; otherwise prompt for the password (`abort` models a
`click.exceptions.Abort` raised there and caught by the surrounding
`try`), call `get_machine_auth`, and then — whatever it returned —
construct the rest client and call `update_password`. -/
def set_password_ (cfg : ConfigObj) (env : Env) (abort : Bool) :
    ConfigObj × List Ev :=
  if cfg.username.isNone then (cfg, [Ev.secho Msg.noAccountFound])
  else if abort then (cfg, [Ev.passwordPrompt])
  else
    let g := get_machine_auth cfg env
    (cfg, Ev.passwordPrompt :: g.2 ++ [Ev.restClientInit, Ev.updatePasswordCall])

/-- `login_with_username_password(config, username, password)`: three bare
`print` calls and nothing else. -/
def login_with_username_password (cfg : ConfigObj) (username password : String) :
    ConfigObj × List Ev :=
  (cfg, [Ev.printOut "-----", Ev.printOut username, Ev.printOut password])

/-- How the `login` command body dispatches. `nameErrorSwitchUser` is the
`elif switchuser or accounts:` branch: it evaluates the name
`_switch_user`, which is neither defined nor imported in the module, so
that branch raises `NameError` before any flow runs. -/
inductive DispatchOutcome where
  | setPasswordFlow
  | nameErrorSwitchUser
  | plainLogin
deriving DecidableEq, Repr

/-- Python truthiness of the `--switchuser` option (default `None`; an
explicit empty string is falsy). -/
def truthyOpt : Option String → Bool
  | none => false
  | some s => s ≠ ""

/-- The dispatcher in `login(config, accounts, switchuser, setpassword,
username, password)`: `if setpassword: _set_password(...)`,
`elif switchuser or accounts:` (evaluates the undefined `_switch_user`),
`else:` the plain username/password path. -/
def login_dispatch (accounts : Bool) (switchuser : Option String)
    (setpassword : Bool) : DispatchOutcome :=
  if setpassword then DispatchOutcome.setPasswordFlow
  else if truthyOpt switchuser || accounts then DispatchOutcome.nameErrorSwitchUser
  else DispatchOutcome.plainLogin

/-- The outcome of `check_setup_twentyone_account(cfg)` inside
`create_wallet_and_account` (an external call: it returns, or raises one of
the listed exceptions, or raises something else). -/
inductive SetupOutcome where
  | success
  | dataProviderUnavailable
  | dataProviderError
  | unlogged
  | otherException
deriving DecidableEq, Repr

/-- The fixed user-facing messages (`UxString.Error.connection_cli`,
`UxString.Error.server_err`), distinct templates. -/
inductive ErrMsg where
  | connection_cli
  | server_err
deriving DecidableEq, Repr

/-- What `create_wallet_and_account()` does for each outcome of the
delegated call. -/
inductive CreateResult where
  | ok
  | twoOneError (m : ErrMsg)
  | exitProcess (code : Nat)
  | uncaught
deriving DecidableEq, Repr

/-- `create_wallet_and_account()`: the `try/except` translation —
`DataProviderUnavailableError → TwoOneError(connection_cli)`,
`DataProviderError → TwoOneError(server_err)`,
`UnloggedException → sys.exit(1)`; anything else propagates unmodified. -/
def create_wallet_and_account : SetupOutcome → CreateResult
  | SetupOutcome.success => CreateResult.ok
  | SetupOutcome.dataProviderUnavailable => CreateResult.twoOneError ErrMsg.connection_cli
  | SetupOutcome.dataProviderError => CreateResult.twoOneError ErrMsg.server_err
  | SetupOutcome.unlogged => CreateResult.exitProcess 1
  | SetupOutcome.otherException => CreateResult.uncaught

/-- The trace the prompt loop produces for a run of rejected entries:
each one is prompted for and answered with the formatted bounds message. -/
def invalidTrace (n : Nat) : List Int → List Ev
  | [] => []
  | j :: rest => Ev.promptInt j :: Ev.secho (Msg.invalidIndex 1 n) :: invalidTrace n rest

/-- Reading a key from the store (first binding wins, like a dict built by
`update_key`). -/
def lookupKey : List (String × String) → String → Option String
  | [], _ => none
  | (k0, v0) :: rest, k => if k0 = k then some v0 else lookupKey rest k

/-! ### Concrete fixtures for witnesses and counterexamples -/

/-- Fixture: a machine auth whose compressed public key bytes are
`[2, 3, 4]` (base64 `AgME`). -/
def wMa : MachineAuth := ⟨⟨[2, 3, 4]⟩⟩

/-- Fixture: a config with a cached machine auth and a previously bound
session on disk. -/
def wCfg : ConfigObj := ⟨some "carol", some wMa, [("username", "carol")], []⟩

/-- Fixture: wallet file present, two registered usernames. -/
def wEnv : Env := ⟨true, wMa, ["alice", "bob"]⟩

/-- Fixture: the account service reports no usernames. -/
def emptyEnv : Env := ⟨true, wMa, []⟩

/-- Fixture: a config whose `username` attribute is set but which carries
no cached machine auth. -/
def noWalletCfg : ConfigObj := ⟨some "alice", none, [("username", "alice")], []⟩

/-- Fixture: no wallet file on disk. -/
def noWalletEnv : Env := ⟨false, wMa, []⟩

/-! ### Key-value store lemmas -/

theorem lookupKey_update_key_self (l : List (String × String)) (k v : String) :
    lookupKey (update_key l k v) k = some v := by
  induction l with
  | nil => simp [update_key, lookupKey]
  | cons hd tl ih =>
      obtain ⟨k0, v0⟩ := hd
      by_cases h : k0 = k
      · simp [update_key, h, lookupKey]
      · simp [update_key, h, lookupKey, ih]

theorem lookupKey_update_key_other (l : List (String × String)) (k v k' : String)
    (hne : k' ≠ k) :
    lookupKey (update_key l k v) k' = lookupKey l k' := by
  induction l with
  | nil => simp [update_key, lookupKey, Ne.symm hne]
  | cons hd tl ih =>
      obtain ⟨k0, v0⟩ := hd
      by_cases h : k0 = k
      · subst h
        simp [update_key, lookupKey, Ne.symm hne, ih]
      · simp [update_key, h, lookupKey, ih]

theorem update_key_of_lookupKey (l : List (String × String)) (k v : String)
    (h : lookupKey l k = some v) : update_key l k v = l := by
  induction l with
  | nil => simp [lookupKey] at h
  | cons hd tl ih =>
      obtain ⟨k0, v0⟩ := hd
      by_cases hk : k0 = k
      · subst hk
        simp [lookupKey] at h
        simp [update_key, h]
      · simp [lookupKey, hk] at h
        simp [update_key, hk, ih h]

/-! ### Prompt-loop lemma -/

theorem promptLoop_spec (n : Nat) (i : Int) (rest : List Int) (pre : List Int)
    (hpre : ∀ j ∈ pre, j ≤ 0 ∨ j > (n : Int))
    (hi1 : 1 ≤ i) (hin : i ≤ (n : Int)) :
    promptLoop n (pre ++ i :: rest) = (invalidTrace n pre ++ [Ev.promptInt i], some i) := by
  induction pre with
  | nil =>
      have hcond : ¬(i ≤ 0 ∨ i > (n : Int)) := by omega
      simp only [List.nil_append, promptLoop, if_neg hcond, invalidTrace]
  | cons j pre ih =>
      have hj : j ≤ 0 ∨ j > (n : Int) := hpre j (by simp)
      have ihh := ih (fun x hx => hpre x (by simp [hx]))
      simp only [List.cons_append, promptLoop, if_pos hj, invalidTrace, List.append_eq, ihh]

/-- `save_configState` written out: both the in-memory view and the disk end
up at the disk image with first `username` and then `mining_auth_pubkey`
updated. -/
theorem save_configState_eq (cfg : ConfigObj) (ma : MachineAuth) (u : String) :
    save_configState cfg ma u =
      { cfg with
        mem := update_key (update_key cfg.disk "username" u) "mining_auth_pubkey"
          (b64encode ma.public_key.compressed_bytes),
        disk := update_key (update_key cfg.disk "username" u) "mining_auth_pubkey"
          (b64encode ma.public_key.compressed_bytes) } := rfl

/-- C5: `save_config` reloads, sets `username` and `mining_auth_pubkey`
(the base64 of the compressed public key), and performs exactly one save,
in that order; afterwards both keys are set on disk, and stopping after any
`k ≤ 3` of its four mutating calls (that is, anywhere strictly before the
final `config.save()`) leaves the on-disk state unchanged. -/
theorem save_config_transactional (cfg : ConfigObj) (ma : MachineAuth) (u : String)
    (k : Nat) (hk : k ≤ 3) :
    (save_config cfg ma u).2 =
      [Ev.secho (Msg.loggingIn u), Ev.configLoad,
       Ev.configUpdate "username" u,
       Ev.configUpdate "mining_auth_pubkey" (b64encode ma.public_key.compressed_bytes),
       Ev.configSave]
    ∧ lookupKey (save_config cfg ma u).1.disk "username" = some u
    ∧ lookupKey (save_config cfg ma u).1.disk "mining_auth_pubkey"
        = some (b64encode ma.public_key.compressed_bytes)
    ∧ save_configUpTo cfg ma u 4 = (save_config cfg ma u).1
    ∧ (save_configUpTo cfg ma u k).disk = cfg.disk := by
  refine ⟨rfl, ?_, ?_, rfl, ?_⟩
  · show lookupKey (save_configState cfg ma u).disk "username" = some u
    rw [save_configState_eq]
    exact (lookupKey_update_key_other _ _ _ _ (by decide)).trans
      (lookupKey_update_key_self _ _ _)
  · show lookupKey (save_configState cfg ma u).disk "mining_auth_pubkey"
        = some (b64encode ma.public_key.compressed_bytes)
    rw [save_configState_eq]
    exact lookupKey_update_key_self _ _ _
  · interval_cases k <;> rfl

/-- Witness for `save_config_transactional` at a concrete config, identity,
username and interruption point. -/
theorem save_config_transactional_witness :
    (save_configUpTo ⟨some "old", none, [("username", "old")], []⟩ ⟨⟨[2, 3, 4]⟩⟩
      "alice" 3).disk = [("username", "old")] :=
  (save_config_transactional ⟨some "old", none, [("username", "old")], []⟩
    ⟨⟨[2, 3, 4]⟩⟩ "alice" 3 (by decide)).2.2.2.2

/-- C6: `save_config` is idempotent — a second call with the same machine
auth and username leaves the whole config state (in particular its
persisted key-value state) exactly where the first call left it. -/
theorem save_config_idempotent (cfg : ConfigObj) (ma : MachineAuth) (u : String) :
    (save_config (save_config cfg ma u).1 ma u).1 = (save_config cfg ma u).1 := by
  show save_configState (save_configState cfg ma u) ma u = save_configState cfg ma u
  simp only [save_configState_eq]
  set b := b64encode ma.public_key.compressed_bytes with hb
  set d := update_key (update_key cfg.disk "username" u) "mining_auth_pubkey" b with hd
  have h1 : lookupKey d "username" = some u := by
    rw [hd, lookupKey_update_key_other _ _ _ _ (by decide), lookupKey_update_key_self]
  have h3 : lookupKey d "mining_auth_pubkey" = some b := by
    rw [hd, lookupKey_update_key_self]
  rw [update_key_of_lookupKey _ _ _ h1, update_key_of_lookupKey _ _ _ h3]

/-- C8: the `try/except` in `create_wallet_and_account` translates each
failure of the delegated account creation to its distinct outcome —
connectivity message, server-error message, `sys.exit(1)` — and nothing
else is translated. -/
theorem create_wallet_and_account_translation :
    create_wallet_and_account SetupOutcome.dataProviderUnavailable
        = CreateResult.twoOneError ErrMsg.connection_cli
    ∧ create_wallet_and_account SetupOutcome.dataProviderError
        = CreateResult.twoOneError ErrMsg.server_err
    ∧ create_wallet_and_account SetupOutcome.unlogged = CreateResult.exitProcess 1
    ∧ create_wallet_and_account SetupOutcome.success = CreateResult.ok
    ∧ create_wallet_and_account SetupOutcome.otherException = CreateResult.uncaught
    ∧ ErrMsg.connection_cli ≠ ErrMsg.server_err := by
  refine ⟨rfl, rfl, rfl, rfl, rfl, by decide⟩

/-- C9 counterexample: an invocation with the accounts flag set but also the
set-password flag set dispatches to the set-password flow, so it does not
evaluate `_switch_user` and does not fail with an undefined-name error. -/
theorem login_dispatch_setpassword_shadows_accounts :
    login_dispatch true (some "bob") true = DispatchOutcome.setPasswordFlow
    ∧ DispatchOutcome.setPasswordFlow ≠ DispatchOutcome.nameErrorSwitchUser := by
  refine ⟨rfl, by decide⟩

/-- C9 (amended): when set-password is not requested and the switch-user
option is set to a truthy value or the accounts flag is set, the dispatcher
takes the branch that evaluates the undefined name `_switch_user`, so the
switch-user / list-accounts mode always fails with an undefined-name error
and never reaches `_login`. -/
theorem login_dispatch_switch_user_name_error (accounts : Bool)
    (switchuser : Option String)
    (h : (truthyOpt switchuser || accounts) = true) :
    login_dispatch accounts switchuser false = DispatchOutcome.nameErrorSwitchUser := by
  unfold login_dispatch
  rw [if_neg (by simp), if_pos h]

/-- Witness for `login_dispatch_switch_user_name_error` at the accounts
flag. -/
theorem login_dispatch_switch_user_name_error_witness :
    login_dispatch true none false = DispatchOutcome.nameErrorSwitchUser :=
  login_dispatch_switch_user_name_error true none (by decide)

/-- C10: the plain-login path only prints the separator, the username and
the password; it performs no service call, resolves no machine auth and
leaves the config untouched. -/
theorem login_with_username_password_only_prints (cfg : ConfigObj)
    (username password : String) :
    login_with_username_password cfg username password =
      (cfg, [Ev.printOut "-----", Ev.printOut username, Ev.printOut password]) := rfl

/-- The logged-in banner is empty or a single `currentlyLoggedIn` message. -/
theorem loggedInEvs_eq (cfg : ConfigObj) :
    loggedInEvs cfg = [] ∨ ∃ u, loggedInEvs cfg = [Ev.secho (Msg.currentlyLoggedIn u)] := by
  unfold loggedInEvs
  cases cfg.username with
  | none => exact Or.inl rfl
  | some u =>
      by_cases h : u = ""
      · exact Or.inl (by simp [h])
      · exact Or.inr ⟨u, by simp [h]⟩

/-- C4: when the account service reports zero usernames (and machine auth
resolved), `_login` never issues a numeric prompt, calls
`create_wallet_and_account` exactly once, and returns with the config
untouched. -/
theorem login_empty_accountset_creates (cfg : ConfigObj) (env : Env)
    (ma : MachineAuth) (user : Option String) (inputs : List Int)
    (hauth : resolveAuth cfg env = some ma)
    (hempty : env.usernames = []) :
    login_ cfg env user inputs =
      (cfg, loggedInEvs cfg ++ [Ev.restClientInit, Ev.accountInfoCall,
        Ev.createWalletAndAccount])
    ∧ ((login_ cfg env user inputs).2.filter
        (fun e => e = Ev.createWalletAndAccount)).length = 1
    ∧ (∀ j : Int, Ev.promptInt j ∉ (login_ cfg env user inputs).2)
    ∧ (login_ cfg env user inputs).1 = cfg := by
  have hmain : login_ cfg env user inputs =
      (cfg, loggedInEvs cfg ++ [Ev.restClientInit, Ev.accountInfoCall,
        Ev.createWalletAndAccount]) := by
    unfold login_
    rw [hauth]
    simp [hempty]
  refine ⟨hmain, ?_, ?_, ?_⟩
  · rw [hmain]
    rcases loggedInEvs_eq cfg with h0 | ⟨u0, h0⟩ <;> simp [h0]
  · intro j
    rw [hmain]
    rcases loggedInEvs_eq cfg with h0 | ⟨u0, h0⟩ <;> simp [h0]
  · rw [hmain]

/-- Witness for `login_empty_accountset_creates` at a concrete config and
environment. -/
theorem login_empty_accountset_creates_witness :
    login_ wCfg emptyEnv none [] =
      (wCfg, [Ev.secho (Msg.currentlyLoggedIn "carol"), Ev.restClientInit,
        Ev.accountInfoCall, Ev.createWalletAndAccount]) :=
  (login_empty_accountset_creates wCfg emptyEnv wMa none [] rfl rfl).1

/-- C2: an explicit username that is an exact member of the reported
username list is selected with no prompt, and is handed to `save_config`,
which binds it in the config. -/
theorem login_explicit_selects (cfg : ConfigObj) (env : Env) (ma : MachineAuth)
    (u : String) (inputs : List Int)
    (hauth : resolveAuth cfg env = some ma)
    (hmem : u ∈ env.usernames) :
    login_ cfg env (some u) inputs =
      (save_configState cfg ma u,
       loggedInEvs cfg ++ [Ev.restClientInit, Ev.accountInfoCall]
         ++ save_configEvs ma u)
    ∧ (∀ j : Int, Ev.promptInt j ∉ (login_ cfg env (some u) inputs).2)
    ∧ lookupKey (login_ cfg env (some u) inputs).1.disk "username" = some u := by
  have hlen : env.usernames.length ≠ 0 := by
    intro h0
    rw [List.length_eq_zero] at h0
    rw [h0] at hmem
    exact absurd hmem (List.not_mem_nil u)
  have hmain : login_ cfg env (some u) inputs =
      (save_configState cfg ma u,
       loggedInEvs cfg ++ [Ev.restClientInit, Ev.accountInfoCall]
         ++ save_configEvs ma u) := by
    unfold login_
    rw [hauth]
    simp [hlen, hmem, save_config]
  refine ⟨hmain, ?_, ?_⟩
  · intro j
    rw [hmain]
    rcases loggedInEvs_eq cfg with h0 | ⟨u0, h0⟩ <;> simp [h0, save_configEvs]
  · rw [hmain]
    show lookupKey (save_configState cfg ma u).disk "username" = some u
    rw [save_configState_eq]
    exact (lookupKey_update_key_other _ _ _ _ (by decide)).trans
      (lookupKey_update_key_self _ _ _)

/-- Witness for `login_explicit_selects`: selecting `bob` out of
`[alice, bob]` binds `bob`. -/
theorem login_explicit_selects_witness :
    lookupKey (login_ wCfg wEnv (some "bob") []).1.disk "username" = some "bob" :=
  (login_explicit_selects wCfg wEnv wMa "bob" [] rfl (by decide)).2.2

/-- C3 (amended: the username list is non-empty, so the flow reaches the
explicit-username branch): an explicit username absent from the list yields
the formatted does-not-exist message and a return with the config object
completely untouched — no load, no key update, no save. -/
theorem login_absent_user_aborts (cfg : ConfigObj) (env : Env) (ma : MachineAuth)
    (u : String) (inputs : List Int)
    (hauth : resolveAuth cfg env = some ma)
    (hne : env.usernames ≠ [])
    (hmem : u ∉ env.usernames) :
    login_ cfg env (some u) inputs =
      (cfg, loggedInEvs cfg ++ [Ev.restClientInit, Ev.accountInfoCall,
        Ev.secho (Msg.userDoesNotExist u)])
    ∧ (login_ cfg env (some u) inputs).1 = cfg
    ∧ Ev.configLoad ∉ (login_ cfg env (some u) inputs).2
    ∧ Ev.configSave ∉ (login_ cfg env (some u) inputs).2
    ∧ (∀ k v : String, Ev.configUpdate k v ∉ (login_ cfg env (some u) inputs).2) := by
  have hlen : env.usernames.length ≠ 0 := by
    simpa [List.length_eq_zero] using hne
  have hmain : login_ cfg env (some u) inputs =
      (cfg, loggedInEvs cfg ++ [Ev.restClientInit, Ev.accountInfoCall,
        Ev.secho (Msg.userDoesNotExist u)]) := by
    unfold login_
    rw [hauth]
    simp [hlen, hmem]
  refine ⟨hmain, by rw [hmain], ?_, ?_, ?_⟩
  · rw [hmain]
    rcases loggedInEvs_eq cfg with h0 | ⟨u0, h0⟩ <;> simp [h0]
  · rw [hmain]
    rcases loggedInEvs_eq cfg with h0 | ⟨u0, h0⟩ <;> simp [h0]
  · intro k v
    rw [hmain]
    rcases loggedInEvs_eq cfg with h0 | ⟨u0, h0⟩ <;> simp [h0]

/-- Witness for `login_absent_user_aborts`: `zed` is not among
`[alice, bob]` and the config comes back unchanged. -/
theorem login_absent_user_aborts_witness :
    (login_ wCfg wEnv (some "zed") []).1 = wCfg :=
  (login_absent_user_aborts wCfg wEnv wMa "zed" [] rfl (by decide) (by decide)).2.1

/-- C3 counterexample: with an empty reported username list, an explicit
username that is (vacuously) not a member produces no does-not-exist
message — the flow goes to account creation before the membership check. -/
theorem login_absent_user_counterexample :
    "alice" ∉ emptyEnv.usernames
    ∧ Ev.secho (Msg.userDoesNotExist "alice")
        ∉ (login_ wCfg emptyEnv (some "alice") []).2 := by decide

/-- C1: with a non-empty username list and no explicit username, `_login`
prints the title and the 1-based numbered listing in received order, then
prompts; every out-of-range entry (≤ 0 or > n) is answered with the
formatted bounds message and re-prompted, and the first in-range entry `i`
ends the loop and binds username number `i` — element `i - 1` of the
list — via `save_config`. -/
theorem login_interactive_selection (cfg : ConfigObj) (env : Env)
    (ma : MachineAuth) (pre rest : List Int) (i : Int)
    (hauth : resolveAuth cfg env = some ma)
    (hne : env.usernames ≠ [])
    (hpre : ∀ j ∈ pre, j ≤ 0 ∨ j > (env.usernames.length : Int))
    (hi1 : 1 ≤ i) (hin : i ≤ (env.usernames.length : Int)) :
    login_ cfg env none (pre ++ i :: rest) =
      (save_configState cfg ma (env.usernames.getD ((i - 1).toNat) ""),
       loggedInEvs cfg ++ [Ev.restClientInit, Ev.accountInfoCall]
         ++ (Ev.secho Msg.registeredTitle :: displayList 1 env.usernames)
         ++ (invalidTrace env.usernames.length pre ++ [Ev.promptInt i])
         ++ save_configEvs ma (env.usernames.getD ((i - 1).toNat) ""))
    ∧ env.usernames[(i - 1).toNat]? = some (env.usernames.getD ((i - 1).toNat) "")
    ∧ lookupKey (login_ cfg env none (pre ++ i :: rest)).1.disk "username"
        = some (env.usernames.getD ((i - 1).toNat) "") := by
  have hlen : env.usernames.length ≠ 0 := by
    simpa [List.length_eq_zero] using hne
  have hloop := promptLoop_spec env.usernames.length i rest pre hpre hi1 hin
  have hmain : login_ cfg env none (pre ++ i :: rest) =
      (save_configState cfg ma (env.usernames.getD ((i - 1).toNat) ""),
       loggedInEvs cfg ++ [Ev.restClientInit, Ev.accountInfoCall]
         ++ (Ev.secho Msg.registeredTitle :: displayList 1 env.usernames)
         ++ (invalidTrace env.usernames.length pre ++ [Ev.promptInt i])
         ++ save_configEvs ma (env.usernames.getD ((i - 1).toNat) "")) := by
    unfold login_
    rw [hauth]
    simp [hlen, hloop, save_config]
  refine ⟨hmain, ?_, ?_⟩
  · have hlt : (i - 1).toNat < env.usernames.length := by omega
    rw [List.getElem?_eq_getElem hlt, List.getD_eq_getElem?_getD,
      List.getElem?_eq_getElem hlt]
    rfl
  · rw [hmain]
    show lookupKey (save_configState cfg ma _).disk "username" = _
    rw [save_configState_eq]
    exact (lookupKey_update_key_other _ _ _ _ (by decide)).trans
      (lookupKey_update_key_self _ _ _)

/-- Witness for `login_interactive_selection`: the user types `5` (rejected
with the bounds message) and then `1`, which selects `alice`. -/
theorem login_interactive_selection_witness :
    login_ wCfg wEnv none [5, 1] =
      (save_configState wCfg wMa "alice",
       [Ev.secho (Msg.currentlyLoggedIn "carol"), Ev.restClientInit,
        Ev.accountInfoCall, Ev.secho Msg.registeredTitle,
        Ev.secho (Msg.numberedUser 1 "alice"), Ev.secho (Msg.numberedUser 2 "bob"),
        Ev.promptInt 5, Ev.secho (Msg.invalidIndex 1 2), Ev.promptInt 1]
         ++ save_configEvs wMa "alice") :=
  (login_interactive_selection wCfg wEnv wMa [5] [] 1 rfl (by decide) (by decide)
    (by decide) (by decide)).1

/-- C7 at the failing input (config with a bound username but no cached
machine auth, wallet file absent): `_login` short-circuits right after
`create_wallet_and_account`, but `_set_password` carries on — it constructs
the rest client (its machine auth being the `None` that `get_machine_auth`
fell through with) and calls `update_password`. -/
theorem set_password_no_short_circuit :
    (set_password_ noWalletCfg noWalletEnv false).2 =
      [Ev.passwordPrompt, Ev.createWalletAndAccount, Ev.restClientInit,
       Ev.updatePasswordCall]
    ∧ (get_machine_auth noWalletCfg noWalletEnv).1 = none
    ∧ login_ noWalletCfg noWalletEnv none [] =
      (noWalletCfg, [Ev.secho (Msg.currentlyLoggedIn "alice"),
        Ev.createWalletAndAccount]) := by
  refine ⟨rfl, rfl, by decide⟩

end TwoOneLogin
